import Mathlib

/-!
Shallow embedding of `src/kernel.py` (qkernel): kernel session lifecycle
(load_state / save_state / clear_state / start_kernel / stop_kernel) and the
execution message-matching loop (`execute_code`), together with theorems
checking the natural-language specification against this embedding.

Conventions of the embedding:
- The Jupyter iopub channel is modelled as a finite list of receive events,
  each being either a delivered message (`RecvEvent.ok`) or an exception
  raised by `client.get_iopub_msg` (`RecvEvent.err`, covering timeouts and
  every other receive failure, since the code catches bare `Exception`).
- Message contents are dynamically shaped dicts in Python; the loop only
  reads the fields `name`, `text`, `data`, `ename`, `evalue`, `traceback`
  and `execution_state`, so a total record carrying exactly those fields is
  a faithful model of the values the code observes. Rich `data` payloads
  are opaque and modelled as strings.
- Filesystem and process state is an explicit `World` record:
  the state file contents, the set of pids for which the zero-signal probe
  `os.kill(pid, 0)` succeeds, and the set of existing connection files.
  Environment choices the code cannot control (whether graceful shutdown,
  SIGTERM or unlink raise) are explicit boolean parameters.
-/

namespace QKernel

/-! ## Execution engine (`execute_code`, kernel.py lines 197-274) -/

/-- Error info dict built by the `error` branch of the loop
(kernel.py lines 253-258): ename, evalue, traceback. -/
structure ErrorInfo where
  ename : String
  evalue : String
  traceback : List String
deriving DecidableEq

/-- Fields of `msg["content"]` that `execute_code` reads.  Python content is a
dict; only these keys are ever accessed, each one only under the message type
that carries it, so a total record is an adequate model. -/
structure MsgContent where
  name : String
  text : String
  data : String
  ename : String
  evalue : String
  traceback : List String
  execution_state : String
deriving DecidableEq

/-- One iopub message: `msg["header"]["msg_type"]`,
`msg.get("parent_header", {}).get("msg_id")` (absent parent header or absent
msg_id key both give Python `None`, modelled as `none`), and `msg["content"]`. -/
structure Msg where
  msg_type : String
  parent_msg_id : Option String
  content : MsgContent
deriving DecidableEq

/-- Reason a `client.get_iopub_msg` call raised: the queue timeout, or any
other exception (closed channel, crashed transport, ...).  The code catches
bare `Exception`, so the loop never inspects the reason. -/
inductive RecvError where
  | timeout : RecvError
  | other : String → RecvError
deriving DecidableEq

/-- One outcome of a `client.get_iopub_msg(timeout=...)` call inside the loop:
either a delivered message or a raised exception. -/
inductive RecvEvent where
  | ok : Msg → RecvEvent
  | err : RecvError → RecvEvent
deriving DecidableEq

/-- Mutable accumulators of the receive loop (kernel.py lines 221-225):
`stdout_parts`, `stderr_parts`, `result`, `display_data`, `error`. -/
structure LoopState where
  stdout_parts : List String
  stderr_parts : List String
  result : Option String
  display_data : List String
  error : Option ErrorInfo
deriving DecidableEq

/-- Initial accumulator state (kernel.py lines 221-225). -/
def initState : LoopState :=
  { stdout_parts := [], stderr_parts := [], result := none,
    display_data := [], error := none }

/-- CellOutput dataclass (kernel.py lines 186-194). -/
structure CellOutput where
  stdout : String
  stderr : String
  result : Option String
  display_data : List String
  error : Option ErrorInfo
deriving DecidableEq

/-- Effect of the dispatch on one matching, non-terminating message
(kernel.py lines 241-258): the `stream` / `execute_result` / `display_data` /
`error` branches; `status` with a non-idle state and unknown message types
fall through with no effect. -/
def stepMsg (acc : LoopState) (m : Msg) : LoopState :=
  if m.msg_type = "stream" then
    if m.content.name = "stdout" then
      { acc with stdout_parts := acc.stdout_parts ++ [m.content.text] }
    else if m.content.name = "stderr" then
      { acc with stderr_parts := acc.stderr_parts ++ [m.content.text] }
    else acc
  else if m.msg_type = "execute_result" then
    { acc with result := some m.content.data }
  else if m.msg_type = "display_data" then
    { acc with display_data := acc.display_data ++ [m.content.data] }
  else if m.msg_type = "error" then
    { acc with error := some ⟨m.content.ename, m.content.evalue, m.content.traceback⟩ }
  else acc

/-- The receive loop of `execute_code` (kernel.py lines 228-262), as a fold
over the receive events.  A raised receive (`err`) breaks the loop
(lines 229-232); a message whose parent msg_id differs from the correlation
token is skipped (lines 237-239); a matching `status` message with
`execution_state == "idle"` breaks the loop (lines 260-262); every other
matching message updates the accumulators via `stepMsg` and the loop
continues.  An exhausted event list stands for a point where the trace is cut
off; the value returned there is the state accumulated so far. -/
def processMsgs (msg_id : String) : LoopState → List RecvEvent → LoopState
  | acc, [] => acc
  | acc, .err _ :: _ => acc
  | acc, .ok m :: rest =>
    if m.parent_msg_id ≠ some msg_id then processMsgs msg_id acc rest
    else if m.msg_type = "status" ∧ m.content.execution_state = "idle" then acc
    else processMsgs msg_id (stepMsg acc m) rest

/-- Freezing of the accumulators into the returned CellOutput
(kernel.py lines 264-270): stdout and stderr are `"".join` of their parts. -/
def finalize (acc : LoopState) : CellOutput :=
  { stdout := String.join acc.stdout_parts,
    stderr := String.join acc.stderr_parts,
    result := acc.result,
    display_data := acc.display_data,
    error := acc.error }

/-- The execute path of `execute_code` after submission: `msg_id` is the
correlation token returned by `client.execute(code)` (line 218) and `events`
the successive outcomes of `client.get_iopub_msg` on the channel. -/
def execute_code (msg_id : String) (events : List RecvEvent) : CellOutput :=
  finalize (processMsgs msg_id initState events)

/-- Per-receive timeout actually passed to `get_iopub_msg`
(kernel.py line 230): the Python expression `timeout or 600` yields 600 both
for `None` and for a falsy `0` timeout. -/
def effectiveTimeout : Option ℚ → ℚ
  | none => 600
  | some t => if t = 0 then 600 else t

/-! ## Spec-side descriptions of the loop output, for comparison -/

/-- Relevance of a receive event to the current request: receive failures
always affect the loop; a delivered message affects it only when its parent
back-reference equals the correlation token. -/
def isRelevant (msg_id : String) : RecvEvent → Bool
  | .err _ => true
  | .ok m => m.parent_msg_id == some msg_id

/-- Modelled from the spec: the matching messages the loop dispatches on, in
arrival order — the token-matching messages delivered strictly before the
first terminator (a raised receive or a matching idle status). -/
def processedMsgs (msg_id : String) : List RecvEvent → List Msg
  | [] => []
  | .err _ :: _ => []
  | .ok m :: rest =>
    if m.parent_msg_id ≠ some msg_id then processedMsgs msg_id rest
    else if m.msg_type = "status" ∧ m.content.execution_state = "idle" then []
    else m :: processedMsgs msg_id rest

/-- Text carried by a stream-fragment message with the given tag
(stdout or stderr); `none` for every other message. -/
def streamText (tag : String) (m : Msg) : Option String :=
  if m.msg_type = "stream" ∧ m.content.name = tag then some m.content.text else none

/-- Payload of a computed-value (`execute_result`) message. -/
def resultPayload (m : Msg) : Option String :=
  if m.msg_type = "execute_result" then some m.content.data else none

/-- Payload of an auxiliary-display (`display_data`) message. -/
def displayPayload (m : Msg) : Option String :=
  if m.msg_type = "display_data" then some m.content.data else none

/-- Failure info carried by an `error` message. -/
def errorPayload (m : Msg) : Option ErrorInfo :=
  if m.msg_type = "error" then some ⟨m.content.ename, m.content.evalue, m.content.traceback⟩ else none

/-- Last-writer-wins register: fold a sequence of writes over an optional
initial value, keeping the last write when one exists. -/
def lastSet {α : Type} (init : Option α) (l : List α) : Option α :=
  l.foldl (fun _ x => some x) init

/-! ## Session store and supervisor (kernel.py lines 14-152, 277-283) -/

/-- KernelState dataclass (kernel.py lines 14-20): connection file path,
kernel name, subprocess pid. -/
structure KernelState where
  connection_file : String
  kernel_name : String
  pid : Int
deriving DecidableEq

/-- Contents of the state file as `load_state` classifies them: either the
text fails `json.loads` / `KernelState(**data)` (JSONDecodeError, KeyError or
TypeError — all handled identically at line 63), or it parses to a
KernelState. -/
inductive StoredData where
  | malformed : StoredData
  | valid : KernelState → StoredData
deriving DecidableEq

/-- Filesystem and process state visible to the lifecycle functions:
the state file (`none` when absent), the pids for which the zero-signal
liveness probe `os.kill(pid, 0)` succeeds, and the set of existing
connection-file paths. -/
structure World where
  stateFile : Option StoredData
  livePids : List Int
  files : List String
deriving DecidableEq

/-- The load_state function (kernel.py lines 35-65): returns the parsed
record and the resulting world.  Absent file: `(none, unchanged)`.  Malformed
file: deleted, `none`.  Parsed record whose pid fails the liveness probe or
whose connection file no longer exists: deleted, `none`.  Otherwise the
record, world unchanged. -/
def load_state (w : World) : Option KernelState × World :=
  match w.stateFile with
  | none => (none, w)
  | some .malformed => (none, { w with stateFile := none })
  | some (.valid ks) =>
    if ks.pid ∈ w.livePids then
      if ks.connection_file ∈ w.files then (some ks, w)
      else (none, { w with stateFile := none })
    else (none, { w with stateFile := none })

/-- The save_state function (kernel.py lines 68-71): `Path.write_text` of the
JSON dump, i.e. the final world once the write completes. -/
def save_state (w : World) (ks : KernelState) : World :=
  { w with stateFile := some (.valid ks) }

/-- States of the store a concurrent reader can observe during
`save_state` (kernel.py line 71).  `Path.write_text` is
`open(mode="w")` — which truncates the file in place — followed by a
`write`; between the truncation and the completed write the file exists with
empty or partial JSON text, which `json.loads` rejects, i.e. a `malformed`
record.  The last element is the state after the write completes. -/
def save_state_observable (w : World) (ks : KernelState) : List World :=
  [{ w with stateFile := some .malformed }, save_state w ks]

/-- The clear_state function (kernel.py lines 74-76): unlink with
`missing_ok=True`, so idempotent. -/
def clear_state (w : World) : World :=
  { w with stateFile := none }

/-- The is_kernel_running function (kernel.py lines 277-283): result plus the
world after load_state's self-healing side effects. -/
def is_kernel_running (w : World) : Bool × World :=
  ((load_state w).1.isSome, (load_state w).2)

/-- Environment choices during stop_kernel that the code reacts to: whether
the graceful-shutdown path (lines 122-124) raises, whether `os.kill(pid,
SIGTERM)` (line 128) raises, and whether unlinking the connection file
(line 134) raises. -/
structure StopEnv where
  gracefulFails : Bool
  sigtermFails : Bool
  unlinkFails : Bool
deriving DecidableEq

/-- Successful termination of a pid: the liveness probe stops succeeding. -/
def killPid (pid : Int) (w : World) : World :=
  { w with livePids := w.livePids.filter (fun p => p ≠ pid) }

/-- Removal of a connection file from the filesystem. -/
def removeFile (path : String) (w : World) : World :=
  { w with files := w.files.filter (fun f => f ≠ path) }

/-- The stop_kernel function (kernel.py lines 110-139).  No loadable record:
return false (the world keeps any self-healing deletion load_state made).
Otherwise: graceful shutdown, falling back to SIGTERM on any failure, with
SIGTERM failures ignored (lines 120-130); best-effort unlink of the
connection file (lines 132-136); unconditional clear_state; return true. -/
def stop_kernel (env : StopEnv) (w : World) : Bool × World :=
  match load_state w with
  | (none, w₁) => (false, w₁)
  | (some st, w₁) =>
    let w₂ :=
      if env.gracefulFails then
        if env.sigtermFails then w₁ else killPid st.pid w₁
      else killPid st.pid w₁
    let w₃ := if env.unlinkFails then w₂ else removeFile st.connection_file w₂
    (true, clear_state w₃)

/-- Environment of one start_kernel spawn attempt: whether
`KernelManager.start_kernel` raises, and on success the connection file and
pid of the spawned subprocess. -/
structure SpawnEnv where
  spawnFails : Bool
  connFile : String
  pid : Int
deriving DecidableEq

/-- Outcome of start_kernel: the RuntimeError of lines 93-95, a spawn
failure propagating out of line 98, or the returned KernelState. -/
inductive StartResult where
  | alreadyRunning : StartResult
  | spawnFailed : StartResult
  | ok : KernelState → StartResult
deriving DecidableEq

/-- The start_kernel function (kernel.py lines 79-107): raise if load_state
returns a record; otherwise spawn the kernel (creating its process and
connection file), build the KernelState from the manager's connection file,
the requested kernel name and the spawned pid, persist it with save_state,
and return it. -/
def start_kernel (env : SpawnEnv) (kernel_name : String) (w : World) :
    StartResult × World :=
  match load_state w with
  | (some _, w₁) => (.alreadyRunning, w₁)
  | (none, w₁) =>
    if env.spawnFails then (.spawnFailed, w₁)
    else
      let w₂ : World :=
        { w₁ with livePids := env.pid :: w₁.livePids, files := env.connFile :: w₁.files }
      let ks : KernelState := ⟨env.connFile, kernel_name, env.pid⟩
      (.ok ks, save_state w₂ ks)

/-- The restart_kernel function (kernel.py lines 142-152): stop (ignoring the
result) then start. -/
def restart_kernel (senv : StopEnv) (env : SpawnEnv) (kernel_name : String)
    (w : World) : StartResult × World :=
  start_kernel env kernel_name (stop_kernel senv w).2

/-! ## Helper lemmas about the receive loop -/

lemma stepMsg_stdout_parts (acc : LoopState) (m : Msg) :
    (stepMsg acc m).stdout_parts = acc.stdout_parts ++ (streamText "stdout" m).toList := by
  unfold stepMsg streamText
  split_ifs <;> simp_all

lemma stepMsg_stderr_parts (acc : LoopState) (m : Msg) :
    (stepMsg acc m).stderr_parts = acc.stderr_parts ++ (streamText "stderr" m).toList := by
  unfold stepMsg streamText
  split_ifs <;> simp_all

lemma stepMsg_display_data (acc : LoopState) (m : Msg) :
    (stepMsg acc m).display_data = acc.display_data ++ (displayPayload m).toList := by
  unfold stepMsg displayPayload
  split_ifs <;> simp_all

lemma stepMsg_result (acc : LoopState) (m : Msg) :
    (stepMsg acc m).result = lastSet acc.result (resultPayload m).toList := by
  unfold stepMsg resultPayload lastSet
  split_ifs <;> simp_all

lemma stepMsg_error (acc : LoopState) (m : Msg) :
    (stepMsg acc m).error = lastSet acc.error (errorPayload m).toList := by
  unfold stepMsg errorPayload lastSet
  split_ifs <;> simp_all

lemma lastSet_append {α : Type} (init : Option α) (l₁ l₂ : List α) :
    lastSet init (l₁ ++ l₂) = lastSet (lastSet init l₁) l₂ := by
  simp [lastSet, List.foldl_append]

lemma processMsgs_stdout_parts (msg_id : String) (evs : List RecvEvent) :
    ∀ acc, (processMsgs msg_id acc evs).stdout_parts =
      acc.stdout_parts ++ (processedMsgs msg_id evs).filterMap (streamText "stdout") := by
  induction evs with
  | nil => intro acc; simp [processMsgs, processedMsgs]
  | cons e rest ih =>
    intro acc
    cases e with
    | err r => simp [processMsgs, processedMsgs]
    | ok m =>
      by_cases hm : m.parent_msg_id = some msg_id
      · by_cases hidle : m.msg_type = "status" ∧ m.content.execution_state = "idle"
        · simp [processMsgs, processedMsgs, hm, hidle]
        · cases hft : streamText "stdout" m with
          | none =>
            simp [processMsgs, processedMsgs, hm, hidle, ih, stepMsg_stdout_parts, hft]
          | some t =>
            simp [processMsgs, processedMsgs, hm, hidle, ih, stepMsg_stdout_parts, hft]
      · simp [processMsgs, processedMsgs, hm, ih]

lemma processMsgs_stderr_parts (msg_id : String) (evs : List RecvEvent) :
    ∀ acc, (processMsgs msg_id acc evs).stderr_parts =
      acc.stderr_parts ++ (processedMsgs msg_id evs).filterMap (streamText "stderr") := by
  induction evs with
  | nil => intro acc; simp [processMsgs, processedMsgs]
  | cons e rest ih =>
    intro acc
    cases e with
    | err r => simp [processMsgs, processedMsgs]
    | ok m =>
      by_cases hm : m.parent_msg_id = some msg_id
      · by_cases hidle : m.msg_type = "status" ∧ m.content.execution_state = "idle"
        · simp [processMsgs, processedMsgs, hm, hidle]
        · cases hft : streamText "stderr" m with
          | none =>
            simp [processMsgs, processedMsgs, hm, hidle, ih, stepMsg_stderr_parts, hft]
          | some t =>
            simp [processMsgs, processedMsgs, hm, hidle, ih, stepMsg_stderr_parts, hft]
      · simp [processMsgs, processedMsgs, hm, ih]

lemma processMsgs_display_data (msg_id : String) (evs : List RecvEvent) :
    ∀ acc, (processMsgs msg_id acc evs).display_data =
      acc.display_data ++ (processedMsgs msg_id evs).filterMap displayPayload := by
  induction evs with
  | nil => intro acc; simp [processMsgs, processedMsgs]
  | cons e rest ih =>
    intro acc
    cases e with
    | err r => simp [processMsgs, processedMsgs]
    | ok m =>
      by_cases hm : m.parent_msg_id = some msg_id
      · by_cases hidle : m.msg_type = "status" ∧ m.content.execution_state = "idle"
        · simp [processMsgs, processedMsgs, hm, hidle]
        · cases hft : displayPayload m with
          | none =>
            simp [processMsgs, processedMsgs, hm, hidle, ih, stepMsg_display_data, hft]
          | some t =>
            simp [processMsgs, processedMsgs, hm, hidle, ih, stepMsg_display_data, hft]
      · simp [processMsgs, processedMsgs, hm, ih]

lemma processMsgs_result (msg_id : String) (evs : List RecvEvent) :
    ∀ acc, (processMsgs msg_id acc evs).result =
      lastSet acc.result ((processedMsgs msg_id evs).filterMap resultPayload) := by
  induction evs with
  | nil => intro acc; simp [processMsgs, processedMsgs, lastSet]
  | cons e rest ih =>
    intro acc
    cases e with
    | err r => simp [processMsgs, processedMsgs, lastSet]
    | ok m =>
      by_cases hm : m.parent_msg_id = some msg_id
      · by_cases hidle : m.msg_type = "status" ∧ m.content.execution_state = "idle"
        · simp [processMsgs, processedMsgs, hm, hidle, lastSet]
        · cases hft : resultPayload m with
          | none =>
            simp [processMsgs, processedMsgs, hm, hidle, ih, stepMsg_result, hft, lastSet]
          | some t =>
            simp [processMsgs, processedMsgs, hm, hidle, ih, stepMsg_result, hft, lastSet]
      · simp [processMsgs, processedMsgs, hm, ih]

lemma processMsgs_error (msg_id : String) (evs : List RecvEvent) :
    ∀ acc, (processMsgs msg_id acc evs).error =
      lastSet acc.error ((processedMsgs msg_id evs).filterMap errorPayload) := by
  induction evs with
  | nil => intro acc; simp [processMsgs, processedMsgs, lastSet]
  | cons e rest ih =>
    intro acc
    cases e with
    | err r => simp [processMsgs, processedMsgs, lastSet]
    | ok m =>
      by_cases hm : m.parent_msg_id = some msg_id
      · by_cases hidle : m.msg_type = "status" ∧ m.content.execution_state = "idle"
        · simp [processMsgs, processedMsgs, hm, hidle, lastSet]
        · cases hft : errorPayload m with
          | none =>
            simp [processMsgs, processedMsgs, hm, hidle, ih, stepMsg_error, hft, lastSet]
          | some t =>
            simp [processMsgs, processedMsgs, hm, hidle, ih, stepMsg_error, hft, lastSet]
      · simp [processMsgs, processedMsgs, hm, ih]

lemma processMsgs_filter_relevant (msg_id : String) (evs : List RecvEvent) :
    ∀ acc, processMsgs msg_id acc (evs.filter (isRelevant msg_id)) =
      processMsgs msg_id acc evs := by
  induction evs with
  | nil => intro acc; rfl
  | cons e rest ih =>
    intro acc
    cases e with
    | err r => simp [List.filter_cons, isRelevant, processMsgs]
    | ok m =>
      by_cases hm : m.parent_msg_id = some msg_id
      · have hrel : isRelevant msg_id (.ok m) = true := by simp [isRelevant, hm]
        by_cases hidle : m.msg_type = "status" ∧ m.content.execution_state = "idle"
        · simp [List.filter_cons, hrel, processMsgs, hm, hidle]
        · simp [List.filter_cons, hrel, processMsgs, hm, hidle, ih]
      · have hrel : isRelevant msg_id (.ok m) = false := by simp [isRelevant, hm]
        simp [List.filter_cons, hrel, processMsgs, hm, ih]

lemma processMsgs_append_err (msg_id : String) (evs : List RecvEvent)
    (r : RecvError) (more : List RecvEvent) :
    ∀ acc, processMsgs msg_id acc (evs ++ .err r :: more) =
      processMsgs msg_id acc evs := by
  induction evs with
  | nil => intro acc; simp [processMsgs]
  | cons e rest ih =>
    intro acc
    cases e with
    | err s => simp [processMsgs]
    | ok m =>
      by_cases hm : m.parent_msg_id = some msg_id
      · by_cases hidle : m.msg_type = "status" ∧ m.content.execution_state = "idle"
        · simp [processMsgs, hm, hidle]
        · simp [processMsgs, hm, hidle, ih]
      · simp [processMsgs, hm, ih]

lemma lastSet_head {α : Type} (l : List α) (h : l.length ≤ 1) :
    lastSet (none : Option α) l = l.head? := by
  cases l with
  | nil => rfl
  | cons x t =>
    cases t with
    | nil => rfl
    | cons y t₂ => simp at h

/-! ## Claims about the execution engine -/

/-- C1: a notification whose parent back-reference does not equal the
correlation token returned at submission is discarded: it neither modifies
any field of the result nor terminates the receive loop (first conjunct);
hence two notification streams that agree on their relevant events — the
receive failures and the token-matching notifications, which excludes
notifications correlated to prior requests — make execute_code return the
same result (second conjunct). -/
theorem C1_crosstalk_discarded :
    (∀ (msg_id : String) (acc : LoopState) (m : Msg) (rest : List RecvEvent),
      m.parent_msg_id ≠ some msg_id →
      processMsgs msg_id acc (.ok m :: rest) = processMsgs msg_id acc rest) ∧
    (∀ (msg_id : String) (evs₁ evs₂ : List RecvEvent),
      evs₁.filter (isRelevant msg_id) = evs₂.filter (isRelevant msg_id) →
      execute_code msg_id evs₁ = execute_code msg_id evs₂) := by
  constructor
  · intro msg_id acc m rest hm
    simp [processMsgs, hm]
  · intro msg_id evs₁ evs₂ h
    unfold execute_code
    rw [← processMsgs_filter_relevant msg_id evs₁, ← processMsgs_filter_relevant msg_id evs₂, h]

/-- Witness for C1 at concrete inputs: a cross-talk stdout fragment from
token id9 is skipped, and two streams differing only in it (and in a
message bearing an already-completed request's token) give equal results. -/
theorem C1_crosstalk_discarded_witness :
    processMsgs "id1" initState
        [.ok ⟨"stream", some "id9", ⟨"stdout", "Z", "", "", "", [], ""⟩⟩,
         .ok ⟨"status", some "id1", ⟨"", "", "", "", "", [], "idle"⟩⟩] =
      processMsgs "id1" initState
        [.ok ⟨"status", some "id1", ⟨"", "", "", "", "", [], "idle"⟩⟩] ∧
    execute_code "id1"
        [.ok ⟨"stream", some "id9", ⟨"stdout", "Z", "", "", "", [], ""⟩⟩,
         .ok ⟨"stream", some "id1", ⟨"stdout", "a", "", "", "", [], ""⟩⟩,
         .ok ⟨"status", some "id1", ⟨"", "", "", "", "", [], "idle"⟩⟩] =
      execute_code "id1"
        [.ok ⟨"stream", some "id1", ⟨"stdout", "a", "", "", "", [], ""⟩⟩,
         .ok ⟨"status", some "id0", ⟨"", "", "", "", "", [], "idle"⟩⟩,
         .ok ⟨"status", some "id1", ⟨"", "", "", "", "", [], "idle"⟩⟩] :=
  ⟨C1_crosstalk_discarded.1 "id1" initState
      ⟨"stream", some "id9", ⟨"stdout", "Z", "", "", "", [], ""⟩⟩
      [.ok ⟨"status", some "id1", ⟨"", "", "", "", "", [], "idle"⟩⟩] (by decide),
   C1_crosstalk_discarded.2 "id1" _ _ (by decide)⟩

/-- C2: a status notification carrying the request's correlation token ends
the receive loop, freezing the accumulated result, exactly when its
execution state is idle; a matching status notification with any other state
leaves the accumulators unchanged (stepMsg is the identity on it) and the
loop continues. -/
theorem C2_idle_status_terminates (msg_id : String) (m : Msg) (acc : LoopState)
    (rest : List RecvEvent) (hmatch : m.parent_msg_id = some msg_id)
    (hstatus : m.msg_type = "status") :
    (m.content.execution_state = "idle" →
      processMsgs msg_id acc (.ok m :: rest) = acc) ∧
    (m.content.execution_state ≠ "idle" →
      stepMsg acc m = acc ∧
      processMsgs msg_id acc (.ok m :: rest) = processMsgs msg_id acc rest) := by
  constructor
  · intro hidle
    simp [processMsgs, hmatch, hstatus, hidle]
  · intro hidle
    have hstep : stepMsg acc m = acc := by
      unfold stepMsg
      simp [hstatus]
    refine ⟨hstep, ?_⟩
    simp [processMsgs, hmatch, hstatus, hidle, hstep]

/-- Witness for C2 at concrete inputs: a matching idle status ends the loop
immediately; a matching busy status changes nothing and continues. -/
theorem C2_idle_status_terminates_witness :
    (processMsgs "id1" initState
        [.ok ⟨"status", some "id1", ⟨"", "", "", "", "", [], "idle"⟩⟩,
         .ok ⟨"stream", some "id1", ⟨"stdout", "late", "", "", "", [], ""⟩⟩] = initState) ∧
    (stepMsg initState ⟨"status", some "id1", ⟨"", "", "", "", "", [], "busy"⟩⟩ = initState ∧
     processMsgs "id1" initState
        [.ok ⟨"status", some "id1", ⟨"", "", "", "", "", [], "busy"⟩⟩,
         .ok ⟨"status", some "id1", ⟨"", "", "", "", "", [], "idle"⟩⟩] =
      processMsgs "id1" initState
        [.ok ⟨"status", some "id1", ⟨"", "", "", "", "", [], "idle"⟩⟩]) :=
  ⟨(C2_idle_status_terminates "id1" ⟨"status", some "id1", ⟨"", "", "", "", "", [], "idle"⟩⟩
      initState [.ok ⟨"stream", some "id1", ⟨"stdout", "late", "", "", "", [], ""⟩⟩]
      rfl rfl).1 rfl,
   (C2_idle_status_terminates "id1" ⟨"status", some "id1", ⟨"", "", "", "", "", [], "busy"⟩⟩
      initState [.ok ⟨"status", some "id1", ⟨"", "", "", "", "", [], "idle"⟩⟩]
      rfl rfl).2 (by decide)⟩

/-- C3: the per-receive timeout defaults to 600 when none is given, and a
receive that times out before a matching idle status arrives aborts the loop:
execute_code returns exactly the result accumulated on the events before the
timeout, as a normal value (the function is total — no error is raised and
the remaining events are never consulted, so it cannot block on them). -/
theorem C3_timeout_partial_result :
    effectiveTimeout none = 600 ∧
    ∀ (msg_id : String) (evs more : List RecvEvent),
      execute_code msg_id (evs ++ .err .timeout :: more) = execute_code msg_id evs := by
  refine ⟨rfl, ?_⟩
  intro msg_id evs more
  unfold execute_code
  rw [processMsgs_append_err]

/-- C10: any receive failure whatsoever — not only a timeout — silently ends
the loop with the partial result accumulated so far (first conjunct), and the
result never depends on which failure occurred or on anything after it: any
two streams that agree up to a receive failure are indistinguishable in the
returned CellOutput, so a crashed or closed channel looks exactly like a
timeout (second conjunct). -/
theorem C10_any_receive_error_partial :
    ∀ (msg_id : String) (evs more more₂ : List RecvEvent) (e₁ e₂ : RecvError),
      execute_code msg_id (evs ++ .err e₁ :: more) = execute_code msg_id evs ∧
      execute_code msg_id (evs ++ .err e₁ :: more) =
        execute_code msg_id (evs ++ .err e₂ :: more₂) := by
  intro msg_id evs more more₂ e₁ e₂
  unfold execute_code
  rw [processMsgs_append_err, processMsgs_append_err]
  exact ⟨rfl, rfl⟩

/-- C4: in the returned CellOutput, stdout (resp. stderr) is the
concatenation, in arrival order, of the texts of the stdout-tagged
(resp. stderr-tagged) stream fragments among the matching messages the loop
dispatched on, and display_data is the sequence of their auxiliary-display
payloads in arrival order. -/
theorem C4_stream_concatenation (msg_id : String) (evs : List RecvEvent) :
    (execute_code msg_id evs).stdout =
      String.join ((processedMsgs msg_id evs).filterMap (streamText "stdout")) ∧
    (execute_code msg_id evs).stderr =
      String.join ((processedMsgs msg_id evs).filterMap (streamText "stderr")) ∧
    (execute_code msg_id evs).display_data =
      (processedMsgs msg_id evs).filterMap displayPayload := by
  unfold execute_code finalize
  refine ⟨?_, ?_, ?_⟩ <;>
    simp [processMsgs_stdout_parts, processMsgs_stderr_parts,
      processMsgs_display_data, initState]

/-- C9: under the protocol contract that at most one computed-value and at
most one failure notification arrive for the request, the returned result
field equals the unique computed-value payload (or stays unset when none
arrived), and the error field the unique failure (or stays unset): each is
set at most once. -/
theorem C9_at_most_one_result (msg_id : String) (evs : List RecvEvent)
    (hres : ((processedMsgs msg_id evs).filterMap resultPayload).length ≤ 1)
    (herr : ((processedMsgs msg_id evs).filterMap errorPayload).length ≤ 1) :
    (execute_code msg_id evs).result =
      ((processedMsgs msg_id evs).filterMap resultPayload).head? ∧
    (execute_code msg_id evs).error =
      ((processedMsgs msg_id evs).filterMap errorPayload).head? := by
  constructor
  · show (finalize (processMsgs msg_id initState evs)).result = _
    unfold finalize
    rw [processMsgs_result]
    exact lastSet_head _ hres
  · show (finalize (processMsgs msg_id initState evs)).error = _
    unfold finalize
    rw [processMsgs_error]
    exact lastSet_head _ herr

/-- Witness for C9 at a concrete input holding one computed value and no
failure. -/
theorem C9_at_most_one_result_witness :
    (execute_code "id1"
        [.ok ⟨"execute_result", some "id1", ⟨"", "", "42", "", "", [], ""⟩⟩,
         .ok ⟨"status", some "id1", ⟨"", "", "", "", "", [], "idle"⟩⟩]).result =
      ((processedMsgs "id1"
        [.ok ⟨"execute_result", some "id1", ⟨"", "", "42", "", "", [], ""⟩⟩,
         .ok ⟨"status", some "id1", ⟨"", "", "", "", "", [], "idle"⟩⟩]).filterMap
          resultPayload).head? ∧
    (execute_code "id1"
        [.ok ⟨"execute_result", some "id1", ⟨"", "", "42", "", "", [], ""⟩⟩,
         .ok ⟨"status", some "id1", ⟨"", "", "", "", "", [], "idle"⟩⟩]).error =
      ((processedMsgs "id1"
        [.ok ⟨"execute_result", some "id1", ⟨"", "", "42", "", "", [], ""⟩⟩,
         .ok ⟨"status", some "id1", ⟨"", "", "", "", "", [], "idle"⟩⟩]).filterMap
          errorPayload).head? :=
  C9_at_most_one_result "id1"
    [.ok ⟨"execute_result", some "id1", ⟨"", "", "42", "", "", [], ""⟩⟩,
     .ok ⟨"status", some "id1", ⟨"", "", "", "", "", [], "idle"⟩⟩]
    (by decide) (by decide)

/-! ## Helper lemmas about the session store -/

lemma load_state_none_stateFile (w : World) (h : (load_state w).1 = none) :
    (load_state w).2.stateFile = none := by
  obtain ⟨sf, lp, fs⟩ := w
  cases sf with
  | none => simp [load_state, h]
  | some sd =>
    cases sd with
    | malformed => simp [load_state]
    | valid ks =>
      by_cases hp : ks.pid ∈ lp
      · by_cases hc : ks.connection_file ∈ fs
        · simp [load_state, hp, hc] at h
        · simp [load_state, hp, hc]
      · simp [load_state, hp]

lemma load_state_some (w : World) (ks : KernelState)
    (h : (load_state w).1 = some ks) : load_state w = (some ks, w) := by
  obtain ⟨sf, lp, fs⟩ := w
  cases sf with
  | none => simp [load_state] at h
  | some sd =>
    cases sd with
    | malformed => simp [load_state] at h
    | valid ks₀ =>
      by_cases hp : ks₀.pid ∈ lp
      · by_cases hc : ks₀.connection_file ∈ fs
        · simp only [load_state, hp, hc, if_pos] at h ⊢
          simp_all
        · simp [load_state, hp, hc] at h
      · simp [load_state, hp] at h

lemma load_state_absent (w : World) (h : w.stateFile = none) :
    load_state w = (none, w) := by
  simp [load_state, h]

/-! ## Claims about the session store and supervisor -/

/-- C7: load_state is self-healing.  It returns a record exactly when the
state file holds a parsed record whose pid passes the liveness probe and
whose connection file still exists (first conjunct, leaving the world
untouched — third conjunct); in every other case — file absent, malformed, a
dead pid or a missing connection file — it returns none and the state file is
gone afterwards (second conjunct), and it is total, so no error surfaces. -/
theorem C7_load_self_healing (w : World) :
    (∀ ks : KernelState, (load_state w).1 = some ks ↔
      (w.stateFile = some (.valid ks) ∧ ks.pid ∈ w.livePids ∧
        ks.connection_file ∈ w.files)) ∧
    ((load_state w).1 = none → (load_state w).2 = { w with stateFile := none }) ∧
    (∀ ks : KernelState, (load_state w).1 = some ks → (load_state w).2 = w) := by
  obtain ⟨sf, lp, fs⟩ := w
  refine ⟨?_, ?_, ?_⟩
  · intro ks
    cases sf with
    | none => simp [load_state]
    | some sd =>
      cases sd with
      | malformed => simp [load_state]
      | valid ks₀ =>
        by_cases hp : ks₀.pid ∈ lp
        · by_cases hc : ks₀.connection_file ∈ fs
          · simp only [load_state, hp, hc, if_pos]
            constructor
            · rintro h
              simp at h
              subst h
              exact ⟨rfl, hp, hc⟩
            · rintro ⟨h, -, -⟩
              simp at h
              subst h
              rfl
          · simp only [load_state, hp, hc, if_pos, if_neg, not_false_iff]
            constructor
            · rintro h; simp at h
            · rintro ⟨h, -, hc₂⟩
              simp at h
              subst h
              exact absurd hc₂ hc
        · simp only [load_state, hp, if_neg, not_false_iff]
          constructor
          · rintro h; simp at h
          · rintro ⟨h, hp₂, -⟩
            simp at h
            subst h
            exact absurd hp₂ hp
  · intro h
    have h₂ := load_state_none_stateFile ⟨sf, lp, fs⟩ h
    have h₃ : (load_state ⟨sf, lp, fs⟩).2.livePids = lp ∧
        (load_state ⟨sf, lp, fs⟩).2.files = fs := by
      cases sf with
      | none => simp [load_state]
      | some sd =>
        cases sd with
        | malformed => simp [load_state]
        | valid ks₀ =>
          by_cases hp : ks₀.pid ∈ lp
          · by_cases hc : ks₀.connection_file ∈ fs
            · simp [load_state, hp, hc]
            · simp [load_state, hp, hc]
          · simp [load_state, hp]
    obtain ⟨hl, hf⟩ := h₃
    cases hw : (load_state ⟨sf, lp, fs⟩).2 with
    | mk a b c =>
      rw [hw] at h₂ hl hf
      simp_all
  · intro ks h
    exact congrArg Prod.snd (load_state_some ⟨sf, lp, fs⟩ ks h)

/-- Witness for C7 at concrete worlds: a fully valid record loads and
changes nothing; a record with a dead pid loads as none with the file
deleted. -/
theorem C7_load_self_healing_witness :
    (load_state ⟨some (.valid ⟨"c", "python3", 5⟩), [5], ["c"]⟩).1 =
      some ⟨"c", "python3", 5⟩ ∧
    (load_state ⟨some (.valid ⟨"c", "python3", 5⟩), [5], ["c"]⟩).2 =
      ⟨some (.valid ⟨"c", "python3", 5⟩), [5], ["c"]⟩ ∧
    (load_state ⟨some (.valid ⟨"c", "python3", 5⟩), [4], ["c"]⟩).2 =
      { (⟨some (.valid ⟨"c", "python3", 5⟩), [4], ["c"]⟩ : World) with
          stateFile := none } :=
  ⟨((C7_load_self_healing ⟨some (.valid ⟨"c", "python3", 5⟩), [5], ["c"]⟩).1
      ⟨"c", "python3", 5⟩).mpr ⟨rfl, by decide, by decide⟩,
   (C7_load_self_healing ⟨some (.valid ⟨"c", "python3", 5⟩), [5], ["c"]⟩).2.2
      ⟨"c", "python3", 5⟩
      (((C7_load_self_healing ⟨some (.valid ⟨"c", "python3", 5⟩), [5], ["c"]⟩).1
        ⟨"c", "python3", 5⟩).mpr ⟨rfl, by decide, by decide⟩),
   (C7_load_self_healing ⟨some (.valid ⟨"c", "python3", 5⟩), [4], ["c"]⟩).2.1
      (by decide)⟩

/-- C5 counterexample: on a store holding a malformed record, no session
record is loadable and stop_kernel returns false, yet it does not change
nothing — the malformed record file has been deleted by load_state's
self-healing, so the resulting world differs from the input world. -/
theorem C5_stop_noop_counterexample :
    (load_state ⟨some .malformed, [], []⟩).1 = none ∧
    (stop_kernel ⟨false, false, false⟩ ⟨some .malformed, [], []⟩).1 = false ∧
    (stop_kernel ⟨false, false, false⟩ ⟨some .malformed, [], []⟩).2 ≠
      ⟨some .malformed, [], []⟩ := by
  decide

/-- C5 (amended): stop_kernel returns false when no record is loadable,
performing no change beyond load_state's own self-healing deletion of an
unloadable record (first conjunct); when a record is loadable it returns true
(second conjunct); in every case — including when graceful shutdown, the
termination signal and connection-file removal all fail — the store holds no
record afterwards, is_kernel_running is false afterwards, and a second stop
returns false (remaining conjuncts). -/
theorem C5_stop_clears_store :
    (∀ (env : StopEnv) (w : World), (load_state w).1 = none →
      (stop_kernel env w).1 = false ∧ (stop_kernel env w).2 = (load_state w).2) ∧
    (∀ (env : StopEnv) (w : World) (ks : KernelState),
      (load_state w).1 = some ks → (stop_kernel env w).1 = true) ∧
    (∀ (env : StopEnv) (w : World), (stop_kernel env w).2.stateFile = none) ∧
    (∀ (env : StopEnv) (w : World),
      (is_kernel_running (stop_kernel env w).2).1 = false) ∧
    (∀ (env env₂ : StopEnv) (w : World),
      (stop_kernel env₂ (stop_kernel env w).2).1 = false) := by
  have hnone : ∀ (env : StopEnv) (w : World), (load_state w).1 = none →
      stop_kernel env w = (false, (load_state w).2) := by
    intro env w h
    have hl : load_state w = (none, (load_state w).2) := Prod.ext h rfl
    unfold stop_kernel
    rw [hl]
  have hsome : ∀ (env : StopEnv) (w : World) (ks : KernelState),
      (load_state w).1 = some ks →
      (stop_kernel env w).1 = true ∧ (stop_kernel env w).2.stateFile = none := by
    intro env w ks h
    have hl := load_state_some w ks h
    unfold stop_kernel
    rw [hl]
    exact ⟨rfl, rfl⟩
  have hclear : ∀ (env : StopEnv) (w : World),
      (stop_kernel env w).2.stateFile = none := by
    intro env w
    cases h : (load_state w).1 with
    | none =>
      rw [(hnone env w h)]
      exact load_state_none_stateFile w h
    | some ks => exact (hsome env w ks h).2
  refine ⟨?_, ?_, hclear, ?_, ?_⟩
  · intro env w h
    rw [hnone env w h]
    exact ⟨rfl, rfl⟩
  · intro env w ks h
    exact (hsome env w ks h).1
  · intro env w
    rw [is_kernel_running, load_state_absent _ (hclear env w)]
    rfl
  · intro env env₂ w
    rw [hnone env₂ _ (by rw [load_state_absent _ (hclear env w)])]

/-- Witness for C5 (amended) at concrete worlds: an absent record makes stop
a strict no-op returning false, and a loadable record makes stop return
true. -/
theorem C5_stop_clears_store_witness :
    ((stop_kernel ⟨false, false, false⟩ ⟨none, [], []⟩).1 = false ∧
      (stop_kernel ⟨false, false, false⟩ ⟨none, [], []⟩).2 =
        (load_state ⟨none, [], []⟩).2) ∧
    (stop_kernel ⟨true, true, true⟩
      ⟨some (.valid ⟨"c", "python3", 5⟩), [5], ["c"]⟩).1 = true :=
  ⟨C5_stop_clears_store.1 ⟨false, false, false⟩ ⟨none, [], []⟩ (by decide),
   C5_stop_clears_store.2.1 ⟨true, true, true⟩
     ⟨some (.valid ⟨"c", "python3", 5⟩), [5], ["c"]⟩ ⟨"c", "python3", 5⟩
     (by decide)⟩

/-- C6: start_kernel fails with AlreadyRunning and leaves the world — in
particular the persisted record — unchanged whenever load_state returns a
record (first conjunct); when load_state returns none and the spawn succeeds
it returns the KernelState made of the spawned connection file, the requested
kernel name and the spawned pid, persists exactly that record, and leaves the
new process live and its connection file present (second conjunct); hence a
second start without an intervening stop fails with AlreadyRunning and
changes nothing, so every further call fails the same way (third conjunct). -/
theorem C6_start_already_running :
    (∀ (env : SpawnEnv) (name : String) (w : World) (ks : KernelState),
      (load_state w).1 = some ks →
      start_kernel env name w = (.alreadyRunning, w)) ∧
    (∀ (env : SpawnEnv) (name : String) (w : World),
      (load_state w).1 = none → env.spawnFails = false →
      (start_kernel env name w).1 = .ok ⟨env.connFile, name, env.pid⟩ ∧
      (start_kernel env name w).2.stateFile =
        some (.valid ⟨env.connFile, name, env.pid⟩) ∧
      (start_kernel env name w).2.livePids = env.pid :: (load_state w).2.livePids ∧
      (start_kernel env name w).2.files = env.connFile :: (load_state w).2.files) ∧
    (∀ (env env₂ : SpawnEnv) (name name₂ : String) (w : World),
      (load_state w).1 = none → env.spawnFails = false →
      start_kernel env₂ name₂ (start_kernel env name w).2 =
        (.alreadyRunning, (start_kernel env name w).2)) := by
  have hok : ∀ (env : SpawnEnv) (name : String) (w : World),
      (load_state w).1 = none → env.spawnFails = false →
      start_kernel env name w =
        (.ok ⟨env.connFile, name, env.pid⟩,
          ⟨some (.valid ⟨env.connFile, name, env.pid⟩),
            env.pid :: (load_state w).2.livePids,
            env.connFile :: (load_state w).2.files⟩) := by
    intro env name w h hspawn
    have hl : load_state w = (none, (load_state w).2) := Prod.ext h rfl
    unfold start_kernel
    rw [hl]
    simp [hspawn, save_state]
  have halready : ∀ (env : SpawnEnv) (name : String) (w : World) (ks : KernelState),
      (load_state w).1 = some ks →
      start_kernel env name w = (.alreadyRunning, w) := by
    intro env name w ks h
    have hl := load_state_some w ks h
    unfold start_kernel
    rw [hl]
  refine ⟨halready, ?_, ?_⟩
  · intro env name w h hspawn
    rw [hok env name w h hspawn]
    exact ⟨rfl, rfl, rfl, rfl⟩
  · intro env env₂ name name₂ w h hspawn
    rw [hok env name w h hspawn]
    apply halready env₂ name₂ _ ⟨env.connFile, name, env.pid⟩
    simp [load_state]

/-- Witness for C6 at concrete inputs: a fresh start succeeds and persists
the record, the immediately following start fails with AlreadyRunning leaving
the world unchanged, and starting over a loadable record fails with
AlreadyRunning. -/
theorem C6_start_already_running_witness :
    start_kernel ⟨false, "c3", 7⟩ "julia"
        ⟨some (.valid ⟨"c", "python3", 5⟩), [5], ["c"]⟩ =
      (.alreadyRunning, ⟨some (.valid ⟨"c", "python3", 5⟩), [5], ["c"]⟩) ∧
    (start_kernel ⟨false, "c2", 9⟩ "python3" ⟨none, [], []⟩).1 =
      .ok ⟨"c2", "python3", 9⟩ ∧
    start_kernel ⟨false, "c3", 7⟩ "julia"
        (start_kernel ⟨false, "c2", 9⟩ "python3" ⟨none, [], []⟩).2 =
      (.alreadyRunning, (start_kernel ⟨false, "c2", 9⟩ "python3" ⟨none, [], []⟩).2) :=
  ⟨C6_start_already_running.1 ⟨false, "c3", 7⟩ "julia"
      ⟨some (.valid ⟨"c", "python3", 5⟩), [5], ["c"]⟩ ⟨"c", "python3", 5⟩ (by decide),
   (C6_start_already_running.2.1 ⟨false, "c2", 9⟩ "python3" ⟨none, [], []⟩
      (by decide) rfl).1,
   C6_start_already_running.2.2 ⟨false, "c2", 9⟩ ⟨false, "c3", 7⟩ "python3" "julia"
      ⟨none, [], []⟩ (by decide) rfl⟩

/-- C8 counterexample: save_state writes with `Path.write_text`, which
truncates the file in place before writing, so on a store with no previous
record a concurrent reader can observe an in-progress state — the truncated,
malformed file — whose contents are neither the previous store contents
(absence) nor the complete new record: the write is not atomic from the
reader's perspective. -/
theorem C8_save_partial_write_visible :
    ({ stateFile := some .malformed, livePids := [], files := [] } : World) ∈
      save_state_observable ⟨none, [], []⟩ ⟨"c", "python3", 5⟩ ∧
    (some StoredData.malformed ≠ (⟨none, [], []⟩ : World).stateFile ∧
      some StoredData.malformed ≠
        (save_state ⟨none, [], []⟩ ⟨"c", "python3", 5⟩).stateFile) := by
  decide

/-- C8 (amended): save_state overwrites the persisted record in place by
truncating and rewriting; once the write completes the store holds exactly
the complete new record (first two conjuncts), but the write is not atomic: a
concurrent reader observes either the truncated in-progress file — malformed,
hence treated by load_state as no record and deleted — or the complete new
record (last two conjuncts). -/
theorem C8_save_inplace_overwrite (w : World) (ks : KernelState) :
    save_state w ks = { w with stateFile := some (.valid ks) } ∧
    (save_state_observable w ks).getLast? = some (save_state w ks) ∧
    (∀ obs ∈ save_state_observable w ks,
      obs.stateFile = some .malformed ∨ obs.stateFile = some (.valid ks)) ∧
    (∀ obs ∈ save_state_observable w ks, obs.stateFile = some .malformed →
      (load_state obs).1 = none ∧ (load_state obs).2.stateFile = none) := by
  refine ⟨rfl, rfl, ?_, ?_⟩
  · intro obs hobs
    simp only [save_state_observable, List.mem_cons, List.mem_singleton] at hobs
    rcases hobs with h | h | h
    · subst h; left; rfl
    · subst h; right; rfl
    · simp at h
  · intro obs hobs hmal
    constructor
    · simp [load_state, hmal]
    · exact load_state_none_stateFile obs (by simp [load_state, hmal])

/-- Witness for C8 (amended) at a concrete store and record. -/
theorem C8_save_inplace_overwrite_witness :
    save_state ⟨none, [], []⟩ ⟨"c", "python3", 5⟩ =
      { (⟨none, [], []⟩ : World) with
          stateFile := some (.valid ⟨"c", "python3", 5⟩) } ∧
    ((⟨some .malformed, [], []⟩ : World).stateFile = some .malformed ∨
      (⟨some .malformed, [], []⟩ : World).stateFile =
        some (.valid ⟨"c", "python3", 5⟩)) ∧
    (load_state ⟨some .malformed, [], []⟩).1 = none :=
  ⟨(C8_save_inplace_overwrite ⟨none, [], []⟩ ⟨"c", "python3", 5⟩).1,
   (C8_save_inplace_overwrite ⟨none, [], []⟩ ⟨"c", "python3", 5⟩).2.2.1
     ⟨some .malformed, [], []⟩ (by decide),
   ((C8_save_inplace_overwrite ⟨none, [], []⟩ ⟨"c", "python3", 5⟩).2.2.2
     ⟨some .malformed, [], []⟩ (by decide) rfl).1⟩

end QKernel
